import Mathlib

/-!
Verification of the excel-agent-fintech extraction/validation/normalization
pipeline.  The Python source is shallowly embedded: Python floats are
modelled as exact rationals, fallible constructors return Except, and the
pandas row dictionaries are modelled as structures with Option-valued
fields (none models both an absent key and a present None value, which the
source treats identically through dict.get).
-/

namespace ExcelAgent

/-! ## Data model (src/models.py) -/

/-- Embeds the pydantic model FinancialPeriod: exactly the ten declared
fields.  The extended fields shares_outstanding, total_debt and
cash_and_equivalents are NOT declared on the model (pydantic silently
ignores unknown keyword arguments under its default configuration). -/
structure FinancialPeriod where
  period_end_date : String
  revenue : ℚ
  cogs : ℚ
  ebit : ℚ
  net_income : ℚ
  depreciation_amortization : ℚ
  assets : ℚ
  liabilities : ℚ
  equity : ℚ
  ocf : ℚ
deriving Repr, DecidableEq

/-- The model validator check_accounting_equation (models.py lines 26-50):
tolerance is max(1.0, 0.01 * assets) and the validator rejects when
the absolute difference exceeds it. -/
def accountingTolerance (assets : ℚ) : ℚ :=
  max 1 ((1 / 100) * assets)

/-- Field-level constraints of the pydantic model: revenue, assets and
liabilities carry ge=0; pydantic checks fields before the model validator. -/
def fieldConstraintsOk (revenue assets liabilities : ℚ) : Bool :=
  decide (0 ≤ revenue) && decide (0 ≤ assets) && decide (0 ≤ liabilities)

/-- Constructing a FinancialPeriod: pydantic field validation (ge=0 on
revenue/assets/liabilities) followed by check_accounting_equation, which
raises ValueError when |assets - (liabilities + equity)| > tolerance. -/
def mkFinancialPeriod (period_end_date : String)
    (revenue cogs ebit net_income depreciation_amortization
     assets liabilities equity ocf : ℚ) : Except String FinancialPeriod :=
  if fieldConstraintsOk revenue assets liabilities = false then
    Except.error "field constraint violated"
  else
    let lhs := assets
    let rhs := liabilities + equity
    let diff := |lhs - rhs|
    let tolerance := accountingTolerance lhs
    if diff > tolerance then
      Except.error "Accounting equation violated"
    else
      Except.ok
        { period_end_date := period_end_date
          revenue := revenue
          cogs := cogs
          ebit := ebit
          net_income := net_income
          depreciation_amortization := depreciation_amortization
          assets := assets
          liabilities := liabilities
          equity := equity
          ocf := ocf }

/-- Embeds the pydantic model CompanyReport (models.py lines 52-59). -/
structure CompanyReport where
  company_name : String
  reporting_currency : String
  reporting_unit : String
  periods : List FinancialPeriod
deriving Repr, DecidableEq

/-! ## Claim C1 -/

/-- C1: every FinancialPeriod produced by the validating constructor
satisfies |assets - (liabilities + equity)| <= max(1, 0.01 * assets), and
any attempted construction whose fields violate that bound fails. -/
theorem c1_accounting_identity (d : String)
    (rev cogs ebit ni da assets liab eq ocf : ℚ) :
    (∀ fp, mkFinancialPeriod d rev cogs ebit ni da assets liab eq ocf =
        Except.ok fp →
      |fp.assets - (fp.liabilities + fp.equity)| ≤ accountingTolerance fp.assets) ∧
    (|assets - (liab + eq)| > accountingTolerance assets →
      ∃ msg, mkFinancialPeriod d rev cogs ebit ni da assets liab eq ocf =
        Except.error msg) := by
  constructor
  · intro fp hok
    unfold mkFinancialPeriod at hok
    by_cases hf : fieldConstraintsOk rev assets liab = false
    · simp [hf] at hok
    · simp [hf] at hok
      by_cases hd : |assets - (liab + eq)| > accountingTolerance assets
      · simp [hd] at hok
      · simp [hd] at hok
        cases hok
        simpa using not_lt.mp hd
  · intro hviol
    unfold mkFinancialPeriod
    by_cases hf : fieldConstraintsOk rev assets liab = false
    · exact ⟨"field constraint violated", by simp [hf]⟩
    · exact ⟨"Accounting equation violated", by simp [hf, hviol]⟩

/-- C1 witness: a valid concrete period satisfies the bound, and a period
missing 100 on the equity side fails construction. -/
theorem c1_accounting_identity_witness :
    (∀ fp, mkFinancialPeriod "2023-12-31" 1000 500 200 150 0 1000 400 600 250 =
        Except.ok fp →
      |fp.assets - (fp.liabilities + fp.equity)| ≤ accountingTolerance fp.assets) ∧
    (∃ msg, mkFinancialPeriod "2023-12-31" 1000 500 200 150 0 1000 400 500 250 =
        Except.error msg) := by
  constructor
  · exact (c1_accounting_identity "2023-12-31" 1000 500 200 150 0 1000 400 600 250).1
  · exact (c1_accounting_identity "2023-12-31" 1000 500 200 150 0 1000 400 500 250).2
      (by norm_num [accountingTolerance])

/-! ## Aggregator rows and currency conversion (src/analyzer.py) -/

/-- A row of the aggregated table: the dictionary built in aggregate_data
from period.model_dump() plus report-level metadata.  Option none models a
key that is absent or holds None (dict.get treats both alike). -/
structure Row where
  period_end_date : String
  company_name : String
  currency : String
  reporting_unit : String
  revenue : Option ℚ
  cogs : Option ℚ
  ebit : Option ℚ
  net_income : Option ℚ
  depreciation_amortization : Option ℚ
  assets : Option ℚ
  liabilities : Option ℚ
  equity : Option ℚ
  ocf : Option ℚ
  total_debt : Option ℚ
  cash_and_equivalents : Option ℚ
  shares_outstanding : Option ℚ
deriving Repr, DecidableEq

/-- FinancialAnalyzer.EXCHANGE_RATES (analyzer.py lines 9-13). -/
def EXCHANGE_RATES : List (String × ℚ) :=
  [("EUR", 43 / 10), ("USD", 4), ("PLN", 1)]

/-- FinancialAnalyzer.TARGET_CURRENCY. -/
def TARGET_CURRENCY : String := "PLN"

/-- Models str.upper() for the ASCII currency codes used by the table. -/
def pyUpper (s : String) : String := String.mk (s.toList.map Char.toUpper)

/-- The metrics loop of _convert_currency: each of the eleven listed
monetary fields is multiplied by the rate when present and non-None. -/
def mapMetrics (rate : ℚ) (row : Row) : Row :=
  { row with
    revenue := row.revenue.map (fun v => v * rate)
    cogs := row.cogs.map (fun v => v * rate)
    ebit := row.ebit.map (fun v => v * rate)
    net_income := row.net_income.map (fun v => v * rate)
    depreciation_amortization :=
      row.depreciation_amortization.map (fun v => v * rate)
    assets := row.assets.map (fun v => v * rate)
    liabilities := row.liabilities.map (fun v => v * rate)
    equity := row.equity.map (fun v => v * rate)
    ocf := row.ocf.map (fun v => v * rate)
    total_debt := row.total_debt.map (fun v => v * rate)
    cash_and_equivalents := row.cash_and_equivalents.map (fun v => v * rate) }

/-- The unit-scale heuristic block (analyzer.py lines 48-59).  The guard
mirrors Python truthiness: row.get of an absent key or a zero value is
falsy, so the block is skipped then; otherwise shares below 10M alongside
(already converted) revenue above 500M are multiplied by 1000. -/
def applySharesHeuristic (row : Row) : Row :=
  match row.shares_outstanding, row.revenue with
  | some s, some r =>
      if s ≠ 0 ∧ r ≠ 0 ∧ s < 10000000 ∧ r > 500000000 then
        { row with shares_outstanding := some (s * 1000) }
      else row
  | _, _ => row

/-- FinancialAnalyzer._convert_currency (analyzer.py lines 24-62): early
return when the uppercased currency is already the target; early return
when the currency is unknown (or its rate is falsy, i.e. zero); otherwise
convert the metrics, run the shares heuristic, and stamp the target
currency. -/
def convert_currency (row : Row) : Row :=
  if pyUpper row.currency = TARGET_CURRENCY then row
  else
    match List.lookup (pyUpper row.currency) EXCHANGE_RATES with
    | none => row
    | some rate =>
        if rate = 0 then row
        else
          { applySharesHeuristic (mapMetrics rate row) with
            currency := TARGET_CURRENCY }

/-- period.model_dump() plus the three metadata keys added by
aggregate_data (analyzer.py lines 74-80).  The dump of a FinancialPeriod
has exactly its ten declared fields, so the extended keys are absent. -/
def rowOfPeriod (report : CompanyReport) (p : FinancialPeriod) : Row :=
  { period_end_date := p.period_end_date
    company_name := report.company_name
    currency := report.reporting_currency
    reporting_unit := report.reporting_unit
    revenue := some p.revenue
    cogs := some p.cogs
    ebit := some p.ebit
    net_income := some p.net_income
    depreciation_amortization := some p.depreciation_amortization
    assets := some p.assets
    liabilities := some p.liabilities
    equity := some p.equity
    ocf := some p.ocf
    total_debt := none
    cash_and_equivalents := none
    shares_outstanding := none }

/-- The row-building loop of aggregate_data: one converted row per period
of each report.  The subsequent sort by period_end_date descending only
permutes rows and is omitted here; row-content claims are unaffected. -/
def aggregateRows (reports : List CompanyReport) : List Row :=
  reports.flatMap (fun report =>
    report.periods.map (fun p => convert_currency (rowOfPeriod report p)))

/-! ## KPI computation (analyzer.py calculate_metrics, lines 112-123) -/

/-- net_margin column: net_income / revenue guarded against zero revenue. -/
def net_margin (net_income revenue : ℚ) : ℚ :=
  if revenue ≠ 0 then net_income / revenue else 0

/-- ebit_margin column: ebit / revenue guarded against zero revenue. -/
def ebit_margin (ebit revenue : ℚ) : ℚ :=
  if revenue ≠ 0 then ebit / revenue else 0

/-- ebitda column: ebit plus depreciation_amortization with missing D&A
filled with zero (astype(float).fillna(0)). -/
def ebitda (ebit : ℚ) (da : Option ℚ) : ℚ :=
  ebit + da.getD 0

/-- ebitda_margin column: ebitda / revenue guarded against zero revenue. -/
def ebitda_margin (e revenue : ℚ) : ℚ :=
  if revenue ≠ 0 then e / revenue else 0

/-- roe column: net_income / equity guarded against zero equity. -/
def roe (net_income equity : ℚ) : ℚ :=
  if equity ≠ 0 then net_income / equity else 0

/-! ## Helper lemmas about the conversion step -/

lemma lookup_rate_ne_zero {c : String} {r : ℚ}
    (h : List.lookup c EXCHANGE_RATES = some r) : r ≠ 0 := by
  unfold EXCHANGE_RATES at h
  simp only [List.lookup] at h
  repeat' split at h
  all_goals simp_all
  all_goals intro hc
  all_goals simp [hc] at h

lemma heuristic_of_some (row : Row) (s v : ℚ)
    (hs : row.shares_outstanding = some s) (hv : row.revenue = some v) :
    applySharesHeuristic row =
      if s ≠ 0 ∧ v ≠ 0 ∧ s < 10000000 ∧ v > 500000000 then
        { row with shares_outstanding := some (s * 1000) }
      else row := by
  unfold applySharesHeuristic
  rw [hs, hv]

lemma heuristic_preserves_other_fields (row : Row) :
    (applySharesHeuristic row).period_end_date = row.period_end_date ∧
    (applySharesHeuristic row).company_name = row.company_name ∧
    (applySharesHeuristic row).currency = row.currency ∧
    (applySharesHeuristic row).reporting_unit = row.reporting_unit ∧
    (applySharesHeuristic row).revenue = row.revenue ∧
    (applySharesHeuristic row).cogs = row.cogs ∧
    (applySharesHeuristic row).ebit = row.ebit ∧
    (applySharesHeuristic row).net_income = row.net_income ∧
    (applySharesHeuristic row).depreciation_amortization =
      row.depreciation_amortization ∧
    (applySharesHeuristic row).assets = row.assets ∧
    (applySharesHeuristic row).liabilities = row.liabilities ∧
    (applySharesHeuristic row).equity = row.equity ∧
    (applySharesHeuristic row).ocf = row.ocf ∧
    (applySharesHeuristic row).total_debt = row.total_debt ∧
    (applySharesHeuristic row).cash_and_equivalents = row.cash_and_equivalents := by
  unfold applySharesHeuristic
  rcases row.shares_outstanding with _ | s <;> rcases hv : row.revenue with _ | v <;>
    (simp [hv]; try (split <;> simp [hv]))

lemma convert_known (row : Row) (rate : ℚ)
    (hne : pyUpper row.currency ≠ TARGET_CURRENCY)
    (hlk : List.lookup (pyUpper row.currency) EXCHANGE_RATES = some rate) :
    convert_currency row =
      { applySharesHeuristic (mapMetrics rate row) with
        currency := TARGET_CURRENCY } := by
  have hrate : rate ≠ 0 := lookup_rate_ne_zero hlk
  unfold convert_currency
  simp [hne, hlk, hrate]

/-! ## Claim C3 -/

/-- A concrete valid period used for building counterexample reports. -/
def samplePeriod : FinancialPeriod :=
  { period_end_date := "2024-12-31"
    revenue := 100
    cogs := 60
    ebit := 30
    net_income := 24
    depreciation_amortization := 0
    assets := 200
    liabilities := 100
    equity := 100
    ocf := 35 }

/-- A report whose reporting currency is not in the exchange-rate table. -/
def gbpReport : CompanyReport :=
  { company_name := "Gbp Corp"
    reporting_currency := "GBP"
    reporting_unit := "thousands"
    periods := [samplePeriod] }

/-- C3 counterexample: the claim says the currency field of every
aggregated row equals the target currency, but a report in an unknown
currency (GBP) passes through _convert_currency unchanged, so its row
keeps currency GBP in the aggregated output. -/
theorem c3_counterexample :
    mkFinancialPeriod "2024-12-31" 100 60 30 24 0 200 100 100 35 =
      Except.ok samplePeriod ∧
    (aggregateRows [gbpReport]).map Row.currency = ["GBP"] ∧
    "GBP" ≠ TARGET_CURRENCY := by
  refine ⟨?_, ?_, by decide⟩
  · norm_num [mkFinancialPeriod, fieldConstraintsOk, accountingTolerance,
      samplePeriod]
  · have hlk : List.lookup (pyUpper "GBP") EXCHANGE_RATES = none := by decide
    have hne : pyUpper "GBP" ≠ TARGET_CURRENCY := by decide
    simp [aggregateRows, gbpReport, convert_currency, rowOfPeriod, hlk, hne]

/-- C3 amended: converting a row whose uppercased currency is a known
non-target currency multiplies each of the eleven listed monetary fields
by exactly the table rate and stamps the target currency; rows whose
currency is unknown, and rows already in the target currency, are
returned entirely unchanged (keeping their original currency string). -/
theorem c3_conversion_amended (row : Row) :
    (∀ rate, pyUpper row.currency ≠ TARGET_CURRENCY →
      List.lookup (pyUpper row.currency) EXCHANGE_RATES = some rate →
      (convert_currency row).revenue = row.revenue.map (fun v => v * rate) ∧
      (convert_currency row).cogs = row.cogs.map (fun v => v * rate) ∧
      (convert_currency row).ebit = row.ebit.map (fun v => v * rate) ∧
      (convert_currency row).net_income = row.net_income.map (fun v => v * rate) ∧
      (convert_currency row).depreciation_amortization =
        row.depreciation_amortization.map (fun v => v * rate) ∧
      (convert_currency row).assets = row.assets.map (fun v => v * rate) ∧
      (convert_currency row).liabilities = row.liabilities.map (fun v => v * rate) ∧
      (convert_currency row).equity = row.equity.map (fun v => v * rate) ∧
      (convert_currency row).ocf = row.ocf.map (fun v => v * rate) ∧
      (convert_currency row).total_debt = row.total_debt.map (fun v => v * rate) ∧
      (convert_currency row).cash_and_equivalents =
        row.cash_and_equivalents.map (fun v => v * rate) ∧
      (convert_currency row).currency = TARGET_CURRENCY) ∧
    (List.lookup (pyUpper row.currency) EXCHANGE_RATES = none →
      convert_currency row = row) ∧
    (pyUpper row.currency = TARGET_CURRENCY → convert_currency row = row) := by
  refine ⟨?_, ?_, ?_⟩
  · intro rate hne hlk
    rw [convert_known row rate hne hlk]
    obtain ⟨-, -, -, -, h5, h6, h7, h8, h9, h10, h11, h12, h13, h14, h15⟩ :=
      heuristic_preserves_other_fields (mapMetrics rate row)
    refine ⟨?_, ?_, ?_, ?_, ?_, ?_, ?_, ?_, ?_, ?_, ?_, rfl⟩
    · show (applySharesHeuristic (mapMetrics rate row)).revenue = _
      rw [h5]; simp [mapMetrics]
    · show (applySharesHeuristic (mapMetrics rate row)).cogs = _
      rw [h6]; simp [mapMetrics]
    · show (applySharesHeuristic (mapMetrics rate row)).ebit = _
      rw [h7]; simp [mapMetrics]
    · show (applySharesHeuristic (mapMetrics rate row)).net_income = _
      rw [h8]; simp [mapMetrics]
    · show (applySharesHeuristic (mapMetrics rate row)).depreciation_amortization = _
      rw [h9]; simp [mapMetrics]
    · show (applySharesHeuristic (mapMetrics rate row)).assets = _
      rw [h10]; simp [mapMetrics]
    · show (applySharesHeuristic (mapMetrics rate row)).liabilities = _
      rw [h11]; simp [mapMetrics]
    · show (applySharesHeuristic (mapMetrics rate row)).equity = _
      rw [h12]; simp [mapMetrics]
    · show (applySharesHeuristic (mapMetrics rate row)).ocf = _
      rw [h13]; simp [mapMetrics]
    · show (applySharesHeuristic (mapMetrics rate row)).total_debt = _
      rw [h14]; simp [mapMetrics]
    · show (applySharesHeuristic (mapMetrics rate row)).cash_and_equivalents = _
      rw [h15]; simp [mapMetrics]
  · intro hlk
    have hne : pyUpper row.currency ≠ TARGET_CURRENCY := by
      intro he
      rw [he] at hlk
      simp [TARGET_CURRENCY, EXCHANGE_RATES, List.lookup] at hlk
    unfold convert_currency
    simp [hne, hlk]
  · intro he
    unfold convert_currency
    simp [he]

/-- C3 witness: an EUR row (rate 4.3) has revenue 100 converted to 430 and
assets 200 converted to 860 with currency stamped PLN, and the GBP row is
left unchanged. -/
theorem c3_conversion_amended_witness :
    (convert_currency (rowOfPeriod gbpReport samplePeriod) =
      rowOfPeriod gbpReport samplePeriod) ∧
    ((convert_currency { rowOfPeriod gbpReport samplePeriod with
        currency := "EUR" }).revenue = some 430 ∧
     (convert_currency { rowOfPeriod gbpReport samplePeriod with
        currency := "EUR" }).assets = some 860 ∧
     (convert_currency { rowOfPeriod gbpReport samplePeriod with
        currency := "EUR" }).currency = TARGET_CURRENCY) := by
  constructor
  · exact (c3_conversion_amended (rowOfPeriod gbpReport samplePeriod)).2.1 (by decide)
  · have h := (c3_conversion_amended { rowOfPeriod gbpReport samplePeriod with
      currency := "EUR" }).1 (43 / 10) (by decide) (by rfl)
    refine ⟨?_, ?_, h.2.2.2.2.2.2.2.2.2.2.2⟩
    · rw [h.1]; norm_num [rowOfPeriod, gbpReport, samplePeriod]
    · rw [h.2.2.2.2.2.1]; norm_num [rowOfPeriod, gbpReport, samplePeriod]

/-! ## Claim C4 -/

/-- A row already in the target currency that meets both heuristic
thresholds: shares 1,000,000 < 10M while revenue 600,000,000 > 500M. -/
def plnHeuristicRow : Row :=
  { rowOfPeriod gbpReport samplePeriod with
    currency := "PLN"
    revenue := some 600000000
    shares_outstanding := some 1000000 }

/-- C4 counterexample: the heuristic condition holds for this row (shares
1,000,000 < 10,000,000 and revenue 600,000,000 > 500,000,000, values
already in the target currency), yet _convert_currency returns on the
target-currency early exit before reaching the heuristic block, so the
shares are not multiplied by 1000. -/
theorem c4_counterexample :
    (convert_currency plnHeuristicRow).shares_outstanding = some 1000000 ∧
    (1000000 : ℚ) < 10000000 ∧ (500000000 : ℚ) < 600000000 ∧
    (1000000 : ℚ) ≠ 1000000 * 1000 := by
  refine ⟨by decide, by norm_num, by norm_num, by norm_num⟩

/-- C4 amended: on rows that actually reach the heuristic block, i.e.
rows whose uppercased currency is a known non-target currency, the
converted row equals the metric-converted row with the target currency
stamped and with shares replaced by shares * 1000 exactly when
shares < 10,000,000 and converted revenue > 500,000,000; in particular
nothing changes at either threshold boundary, and no field other than
shares_outstanding is touched by the heuristic. -/
theorem c4_heuristic_amended (row : Row) (rate s r : ℚ)
    (hne : pyUpper row.currency ≠ TARGET_CURRENCY)
    (hlk : List.lookup (pyUpper row.currency) EXCHANGE_RATES = some rate)
    (hs : row.shares_outstanding = some s)
    (hr : row.revenue = some r) :
    convert_currency row =
      { mapMetrics rate row with
        shares_outstanding :=
          some (if s < 10000000 ∧ 500000000 < r * rate then s * 1000 else s)
        currency := TARGET_CURRENCY } ∧
    (s = 10000000 →
      (convert_currency row).shares_outstanding = some s) ∧
    (r * rate = 500000000 →
      (convert_currency row).shares_outstanding = some s) := by
  have hs1 : (mapMetrics rate row).shares_outstanding = some s := by
    simp [mapMetrics, hs]
  have hr1 : (mapMetrics rate row).revenue = some (r * rate) := by
    simp [mapMetrics, hr]
  have hmain : convert_currency row =
      { mapMetrics rate row with
        shares_outstanding :=
          some (if s < 10000000 ∧ 500000000 < r * rate then s * 1000 else s)
        currency := TARGET_CURRENCY } := by
    rw [convert_known row rate hne hlk]
    rw [heuristic_of_some (mapMetrics rate row) s (r * rate) hs1 hr1]
    by_cases hzs : s = 0
    · subst hzs
      rw [if_neg (by simp)]
      have hval : (if (0 : ℚ) < 10000000 ∧ (500000000 : ℚ) < r * rate then
          (0 : ℚ) * 1000 else 0) = 0 := by
        split
        · ring
        · rfl
      rw [hval]
      conv_rhs =>
        rw [show (some (0 : ℚ)) =
          (mapMetrics rate row).shares_outstanding from hs1.symm]
    · by_cases hcond : s < 10000000 ∧ 500000000 < r * rate
      · have hrz : r * rate ≠ 0 := by
          intro h0
          rw [h0] at hcond
          exact absurd hcond.2 (by norm_num)
        rw [if_pos ⟨hzs, hrz, hcond.1, hcond.2⟩, if_pos hcond]
      · rw [if_neg (fun hC => hcond ⟨hC.2.2.1, hC.2.2.2⟩), if_neg hcond]
        conv_rhs =>
          rw [show (some s) =
            (mapMetrics rate row).shares_outstanding from hs1.symm]
  refine ⟨hmain, ?_, ?_⟩
  · intro hb
    rw [hmain]
    simp [hb]
  · intro hb
    rw [hmain]
    simp [hb]

/-- C4 witness: an EUR row with shares 5,000,000 and revenue 200,000,000
(converted: 860,000,000 > 500M) has its shares scaled to 5,000,000,000,
while at the exact boundaries (shares equal to 10M, or converted revenue
equal to 500M) nothing changes. -/
theorem c4_heuristic_amended_witness :
    (convert_currency { rowOfPeriod gbpReport samplePeriod with
        currency := "EUR"
        revenue := some 200000000
        shares_outstanding := some 5000000 }).shares_outstanding =
      some 5000000000 ∧
    (convert_currency { rowOfPeriod gbpReport samplePeriod with
        currency := "EUR"
        revenue := some 200000000
        shares_outstanding := some 10000000 }).shares_outstanding =
      some 10000000 ∧
    (convert_currency { rowOfPeriod gbpReport samplePeriod with
        currency := "USD"
        revenue := some 125000000
        shares_outstanding := some 5000000 }).shares_outstanding =
      some 5000000 := by
  refine ⟨?_, ?_, ?_⟩
  · have h := (c4_heuristic_amended { rowOfPeriod gbpReport samplePeriod with
      currency := "EUR"
      revenue := some 200000000
      shares_outstanding := some 5000000 } (43 / 10) 5000000 200000000
      (by decide) (by rfl) rfl rfl).1
    rw [h]
    norm_num
  · have h := (c4_heuristic_amended { rowOfPeriod gbpReport samplePeriod with
      currency := "EUR"
      revenue := some 200000000
      shares_outstanding := some 10000000 } (43 / 10) 10000000 200000000
      (by decide) (by rfl) rfl rfl).2.1
    exact h rfl
  · have h := (c4_heuristic_amended { rowOfPeriod gbpReport samplePeriod with
      currency := "USD"
      revenue := some 125000000
      shares_outstanding := some 5000000 } 4 5000000 125000000
      (by decide) (by rfl) rfl rfl).2.2
    exact h (by norm_num)

/-! ## Claim C6 -/

/-- C6: each KPI guard returns 0 on a zero denominator and the exact ratio
otherwise: net_margin and ebit_margin guard on revenue, ebitda_margin
guards on revenue with ebitda = ebit + D&A, and roe guards on equity. -/
theorem c6_kpi_zero_guards (ni r e eq d : ℚ) (da : Option ℚ) :
    (r = 0 →
      net_margin ni r = 0 ∧ ebit_margin e r = 0 ∧
      ebitda_margin (ebitda e da) r = 0) ∧
    (eq = 0 → roe ni eq = 0) ∧
    (r ≠ 0 →
      net_margin ni r = ni / r ∧ ebit_margin e r = e / r ∧
      ebitda_margin (ebitda e (some d)) r = (e + d) / r) ∧
    (eq ≠ 0 → roe ni eq = ni / eq) := by
  refine ⟨?_, ?_, ?_, ?_⟩
  · intro h
    simp [net_margin, ebit_margin, ebitda_margin, h]
  · intro h
    simp [roe, h]
  · intro h
    simp [net_margin, ebit_margin, ebitda_margin, ebitda, h]
  · intro h
    simp [roe, h]

/-- C6 witness: at revenue 0 and equity 0 every guarded KPI is 0, and at
revenue 200 and equity 50 the KPIs are the exact ratios. -/
theorem c6_kpi_zero_guards_witness :
    (net_margin 7 0 = 0 ∧ ebit_margin 9 0 = 0 ∧
      ebitda_margin (ebitda 9 (some 3)) 0 = 0) ∧
    roe 7 0 = 0 ∧
    (net_margin 7 200 = 7 / 200 ∧ ebit_margin 9 200 = 9 / 200 ∧
      ebitda_margin (ebitda 9 (some 3)) 200 = (9 + 3) / 200) ∧
    roe 7 50 = 7 / 50 := by
  have h1 := (c6_kpi_zero_guards 7 0 9 0 3 (some 3)).1 rfl
  have h2 := (c6_kpi_zero_guards 7 0 9 0 3 (some 3)).2.1 rfl
  have h3 := (c6_kpi_zero_guards 7 200 9 50 3 (some 3)).2.2.1 (by norm_num)
  have h4 := (c6_kpi_zero_guards 7 200 9 50 3 (some 3)).2.2.2 (by norm_num)
  exact ⟨h1, h2, h3, h4⟩

/-! ## Page relevance filter (src/filter.py) -/

/-- Bool test that pat occurs at the head of the text. -/
def startsWithList (pat text : List Char) : Bool :=
  match pat, text with
  | [], _ => true
  | _ :: _, [] => false
  | c :: cs, d :: ds => c == d && startsWithList cs ds

/-- Models the Python substring test (keyword in text). -/
def hasSubList (pat : List Char) : List Char → Bool
  | [] => startsWithList pat []
  | c :: rest => startsWithList pat (c :: rest) || hasSubList pat rest

/-- Models (keyword in text) on strings. -/
def containsKeyword (kw text : String) : Bool :=
  hasSubList kw.toList text.toList

/-- Models str.lower(); ASCII case-folding (the keyword table is already
lower case and the claim does not depend on non-ASCII folding). -/
def pyLower (s : String) : String := String.mk (s.toList.map Char.toLower)

/-- KEYWORDS table (filter.py lines 5-14). -/
def KEYWORDS : List (String × ℤ) :=
  [("skonsolidowane sprawozdanie", 50),
   ("rachunek zysków i strat", 100),
   ("sytuacji finansowej", 100),
   ("przepływy pieniężne", 100),
   ("aktywa", 20),
   ("pasywa", 20),
   ("przychody ze sprzedaży", 20),
   ("zysk netto", 20)]

/-- NEGATIVE_KEYWORDS table (filter.py lines 16-19). -/
def NEGATIVE_KEYWORDS : List (String × ℤ) :=
  [("spis treści", -500), ("strona", -5)]

/-- The per-page score loop: points of every positive keyword contained in
the (lowercased) text, then points of every negative keyword.  The two
loops of the source are fused into one fold over the concatenated table,
which adds the same points in the same order. -/
def pageScore (text : String) : ℤ :=
  (KEYWORDS ++ NEGATIVE_KEYWORDS).foldl
    (fun acc kv => if containsKeyword kv.1 text then acc + kv.2 else acc) 0

/-- Per-page decision of filter_financial_pages: pages whose extracted
lowercased text is empty are skipped (continue), otherwise the page is
kept iff its score strictly exceeds the threshold. -/
def keepPage (threshold : ℤ) (page : String) : Bool :=
  if pyLower page = "" then false
  else decide (threshold < pageScore (pyLower page))

/-- The default value of the threshold parameter of
filter_financial_pages. -/
def DEFAULT_THRESHOLD : ℤ := 50

/-- filter_financial_pages (filter.py lines 21-85): pages is the list of
per-page extracted texts; the result is the success flag (pages_kept > 0)
paired with the kept pages in original order. -/
def filter_financial_pages (threshold : ℤ) (pages : List String) :
    Bool × List String :=
  (decide (0 < (pages.filter (keepPage threshold)).length),
   pages.filter (keepPage threshold))

lemma pageScore_empty : pageScore "" = 0 := by decide

lemma keepPage_eq_scoreTest (threshold : ℤ) (h : 0 ≤ threshold) (p : String) :
    keepPage threshold p = decide (threshold < pageScore (pyLower p)) := by
  unfold keepPage
  by_cases he : pyLower p = ""
  · rw [if_pos he, he, pageScore_empty]
    exact (decide_eq_false (not_lt.mpr h)).symm
  · rw [if_neg he]

/-! ## Claim C7 -/

/-- C7: with a nonnegative threshold (the default is 50) the filter keeps
exactly the pages whose score strictly exceeds the threshold, in original
page order (the kept list is a sublist of the input); the flag is true iff
at least one page is kept, and is false whenever every page scores at or
below the threshold. -/
theorem c7_page_filter (pages : List String) (threshold : ℤ)
    (h : 0 ≤ threshold) :
    (filter_financial_pages threshold pages).2 =
      pages.filter (fun p => decide (threshold < pageScore (pyLower p))) ∧
    List.Sublist (filter_financial_pages threshold pages).2 pages ∧
    ((filter_financial_pages threshold pages).1 = true ↔
      ∃ p ∈ pages, threshold < pageScore (pyLower p)) ∧
    ((∀ p ∈ pages, pageScore (pyLower p) ≤ threshold) →
      (filter_financial_pages threshold pages).1 = false) := by
  have hfe : pages.filter (keepPage threshold) =
      pages.filter (fun p => decide (threshold < pageScore (pyLower p))) := by
    exact List.filter_congr (fun p _ => keepPage_eq_scoreTest threshold h p)
  refine ⟨hfe, List.filter_sublist pages, ?_, ?_⟩
  · unfold filter_financial_pages
    rw [hfe]
    simp [List.length_pos, List.filter_eq_nil_iff, not_le]
  · intro hall
    unfold filter_financial_pages
    rw [hfe]
    simp only [decide_eq_false_iff_not, not_lt, Nat.le_zero,
      List.length_eq_zero, List.filter_eq_nil_iff]
    intro p hmem
    simp only [decide_eq_true_eq]
    exact not_lt.mpr (hall p hmem)

/-- C7 witness: with the default threshold 50, a table-of-contents page
scores -500 and is dropped, a page containing the profit-and-loss marker
and a validation keyword scores 120 and is kept, the kept list preserves
it, and the flag is true; with only the low page the flag is false. -/
theorem c7_page_filter_witness :
    (filter_financial_pages 50
      ["spis treści", "rachunek zysków i strat oraz aktywa"]).2 =
      ["rachunek zysków i strat oraz aktywa"] ∧
    (filter_financial_pages 50
      ["spis treści", "rachunek zysków i strat oraz aktywa"]).1 = true ∧
    (filter_financial_pages 50 ["spis treści"]).1 = false := by
  have h1 := c7_page_filter
    ["spis treści", "rachunek zysków i strat oraz aktywa"] 50 (by norm_num)
  have h2 := c7_page_filter ["spis treści"] 50 (by norm_num)
  refine ⟨?_, ?_, ?_⟩
  · rw [h1.1]; decide
  · exact (h1.2.2.1).mpr
      ⟨"rachunek zysków i strat oraz aktywa", by decide, by decide⟩
  · exact h2.2.2.2 (by decide)

/-! ## Retry policy of extract_data (src/extractor.py lines 14-19)

The decorated body can raise: a configuration ValueError (missing API
key), a pydantic ValidationError (accounting identity or schema), a JSON
decode error, an empty-response ValueError, or a network/API error.  All
are Exception instances in Python. -/

inductive PyErr where
  | configError
  | validationError
  | jsonDecodeError
  | emptyResponse
  | apiError
deriving Repr, DecidableEq

/-- retry=retry_if_exception_type(Exception): the predicate tests
isinstance(e, Exception), which holds for every error the body raises. -/
def retryOnExc : PyErr → Bool := fun _ => true

/-- The tenacity retry loop with reraise=True: op gives the outcome of
each numbered attempt, rem counts the attempts still allowed after the
current one; the result is paired with the number of the last attempt
actually made. -/
def retryGo (op : ℕ → Except PyErr α) : ℕ → ℕ → Except PyErr α × ℕ
  | attempt, 0 => (op attempt, attempt)
  | attempt, rem + 1 =>
    match op attempt with
    | Except.ok a => (Except.ok a, attempt)
    | Except.error e =>
        if retryOnExc e then retryGo op (attempt + 1) rem
        else (Except.error e, attempt)

/-- The extract_data policy: stop_after_attempt(5), i.e. first attempt
plus at most four retries. -/
def runExtractRetry (op : ℕ → Except PyErr α) : Except PyErr α × ℕ :=
  retryGo op 1 4

/-- tenacity wait_exponential(multiplier, min, max): the wait in seconds
after the n-th failed attempt is multiplier * 2^(n-1) clamped into
[min, max] (max(max(0, min), min(result, max)) in the library source). -/
def wait_exponential (multiplier lo hi : ℚ) (attemptNumber : ℕ) : ℚ :=
  max (max 0 lo) (min (multiplier * 2 ^ (attemptNumber - 1)) hi)

/-- The wait schedule of extract_data:
wait_exponential(multiplier=2, min=15, max=120). -/
def extractWait (attemptNumber : ℕ) : ℚ :=
  wait_exponential 2 15 120 attemptNumber

/-! ## Claim C2 -/

/-- An operation that raises a validation error on the first attempt and
succeeds on the second. -/
def opValidationThenOk : ℕ → Except PyErr ℕ :=
  fun n => if n = 1 then Except.error PyErr.validationError else Except.ok 7

/-- C2 counterexample: the claim says a validation failure (or a
configuration error) makes extract_data fail immediately without
re-invoking the operation; in the code the retry predicate accepts every
Exception, so after a first-attempt validation error the operation is
invoked again (here the call even succeeds on attempt 2 instead of
failing), and an always-failing configuration error is re-raised only
after all 5 attempts rather than after 1. -/
theorem c2_counterexample :
    runExtractRetry opValidationThenOk = (Except.ok 7, 2) ∧ (2 : ℕ) ≠ 1 ∧
    runExtractRetry (fun _ => (Except.error PyErr.configError :
      Except PyErr ℕ)) = (Except.error PyErr.configError, 5) ∧ (5 : ℕ) ≠ 1 := by
  exact ⟨rfl, by norm_num, rfl, by norm_num⟩

/-- C2 amended: the retry predicate accepts every exception class, so
validation failures and configuration errors are retried exactly like
transient errors: any first-attempt error of any kind is followed by a
second invocation (a successful second attempt makes the whole call
succeed on attempt 2), and an operation failing on every attempt is
re-raised only after the 5 allowed attempts. -/
theorem c2_retry_amended (op : ℕ → Except PyErr ℕ) (e : PyErr) (x : ℕ) :
    retryOnExc e = true ∧
    (op 1 = Except.error e → op 2 = Except.ok x →
      runExtractRetry op = (Except.ok x, 2)) ∧
    ((∀ n, op n = Except.error e) →
      runExtractRetry op = (Except.error e, 5)) := by
  refine ⟨rfl, ?_, ?_⟩
  · intro h1 h2
    simp [runExtractRetry, retryGo, h1, h2, retryOnExc]
  · intro hall
    simp [runExtractRetry, retryGo, hall, retryOnExc]

/-- C2 witness: the amended behavior at the two concrete operations: a
validation error on attempt 1 followed by success on attempt 2 gives a
success on attempt 2, and an always-raised configuration error is
re-raised after attempt 5. -/
theorem c2_retry_amended_witness :
    runExtractRetry opValidationThenOk = (Except.ok 7, 2) ∧
    runExtractRetry (fun _ => (Except.error PyErr.configError :
      Except PyErr ℕ)) = (Except.error PyErr.configError, 5) := by
  constructor
  · exact (c2_retry_amended opValidationThenOk PyErr.validationError 7).2.1
      rfl rfl
  · exact (c2_retry_amended (fun _ => Except.error PyErr.configError)
      PyErr.configError 0).2.2 (fun n => rfl)

/-! ## Claim C8 -/

/-- C8: evaluating the configured backoff at the failing input.  tenacity
computes multiplier * 2^(n-1) clamped into [min, max], so with
multiplier=2, min=15, max=120 the waits after attempts 1..4 are
15, 15, 15, 16 seconds: the second retry does NOT wait strictly longer
than the first, contradicting the claimed (and source-commented)
strictly increasing 15s, 30s, 60s schedule; the 5-attempt cap with
re-raise after exhaustion does hold. -/
theorem c8_backoff_schedule :
    extractWait 1 = 15 ∧ extractWait 2 = 15 ∧ extractWait 3 = 15 ∧
    extractWait 4 = 16 ∧ ¬ extractWait 1 < extractWait 2 ∧
    runExtractRetry (fun _ => (Except.error PyErr.apiError :
      Except PyErr ℕ)) = (Except.error PyErr.apiError, 5) := by
  refine ⟨?_, ?_, ?_, ?_, ?_, rfl⟩ <;>
    norm_num [extractWait, wait_exponential]

/-! ## Response sanitization (src/extractor.py _clean_json_text, lines
180-201) -/

/-- Splits at the first occurrence of pat: returns the text before the
occurrence and the text after it, or none when pat does not occur. -/
def splitFirstList (pat : List Char) : List Char → Option (List Char × List Char)
  | [] => if startsWithList pat [] then some ([], []) else none
  | c :: rest =>
      if startsWithList pat (c :: rest) then
        some ([], (c :: rest).drop pat.length)
      else
        match splitFirstList pat rest with
        | none => none
        | some (pre, post) => some (c :: pre, post)

/-- The opening reasoning tag. -/
def thinkOpen : List Char := "<think>".toList

/-- The closing reasoning tag. -/
def thinkClose : List Char := "</think>".toList

/-- Fuelled worker for the non-greedy global substitution of think
blocks (re.sub with DOTALL): the leftmost match starts at the first
opening tag and ends at the first closing tag after it, and scanning
resumes after the removed match.  Fuel = text length is enough since
each step consumes both tags. -/
def removeThinkFuel : ℕ → List Char → List Char
  | 0, t => t
  | fuel + 1, t =>
    match splitFirstList thinkOpen t with
    | none => t
    | some (pre, post) =>
      match splitFirstList thinkClose post with
      | none => t
      | some (_, post2) => pre ++ removeThinkFuel fuel post2

/-- Removes every think-block, as re.sub with the non-greedy DOTALL
pattern does. -/
def removeThink (t : List Char) : List Char := removeThinkFuel t.length t

/-- Python regex whitespace class (ASCII). -/
def pyIsSpace (c : Char) : Bool :=
  c == ' ' || c == '\t' || c == '\n' || c == '\r' || c == '\x0b' || c == '\x0c'

/-- Fuelled worker for re.sub of a literal marker followed by greedy
whitespace: each occurrence with its trailing whitespace run is removed,
scanning resumes after the match. -/
def removeMarkerFuel (pat : List Char) : ℕ → List Char → List Char
  | 0, t => t
  | fuel + 1, t =>
    match splitFirstList pat t with
    | none => t
    | some (pre, post) =>
        pre ++ removeMarkerFuel pat fuel (post.dropWhile pyIsSpace)

/-- Removes every occurrence of a code-fence marker plus trailing
whitespace. -/
def removeMarker (pat t : List Char) : List Char :=
  removeMarkerFuel pat t.length t

/-- The json code-fence marker. -/
def jsonFence : List Char := "```json".toList

/-- The bare code-fence marker. -/
def fenceMarker : List Char := "```".toList

/-- Python str.strip(): whitespace removed from both ends. -/
def pyStrip (t : List Char) : List Char :=
  ((t.dropWhile pyIsSpace).reverse.dropWhile pyIsSpace).reverse

/-- The final step of _clean_json_text: text[first brace index : last
closing brace index + 1] when both braces occur, else text.strip(). -/
def braceSlice (t : List Char) : List Char :=
  match List.findIdx? (fun c => c == '{') t,
        List.findIdx? (fun c => c == '}') t.reverse with
  | some s, some rIdx => (t.drop s).take (t.length - 1 - rIdx + 1 - s)
  | _, _ => pyStrip t

/-- _clean_json_text: remove think blocks, then json fences, then bare
fences, then slice from the first opening brace to the last closing
brace. -/
def clean_json_text (s : String) : String :=
  String.mk (braceSlice (removeMarker fenceMarker
    (removeMarker jsonFence (removeThink s.toList))))

/-! ## Claim C9 -/

/-- A model response wrapping the JSON object in a leading reasoning
block (itself containing braces), surrounding prose and a code fence. -/
def exampleResponse : String :=
  "<think>I should check assets \x7b200\x7d equal liabilities plus equity.</think>Sure, here is the extraction:\n```json\n\x7b \"company_name\": \"Acme\", \"revenue\": 100 \x7d\n```\nHope this helps!"

/-- The embedded JSON object alone. -/
def exampleJson : String :=
  "\x7b \"company_name\": \"Acme\", \"revenue\": 100 \x7d"

/-- C9: the sanitizer is exactly the unconditional pipeline think-block
removal, then json-fence removal, then bare-fence removal, then the
first-open-brace-to-last-close-brace slice; applied to a response wrapped
in a reasoning block, prose and a code fence it returns exactly the
embedded JSON object. -/
theorem c9_sanitization :
    (∀ s : String, clean_json_text s =
      String.mk (braceSlice (removeMarker fenceMarker
        (removeMarker jsonFence (removeThink s.toList))))) ∧
    clean_json_text exampleResponse = exampleJson := by
  constructor
  · intro s
    rfl
  · set_option maxRecDepth 10000 in decide

/-! ## Revenue forecaster (src/src/ml/forecaster.py) -/

/-- Insertion into a year-ascending list, keeping earlier input elements
before equal years (a stable sort; the forecaster claims do not involve
duplicate years). -/
def insertByYear (x : ℤ × ℚ) : List (ℤ × ℚ) → List (ℤ × ℚ)
  | [] => [x]
  | y :: ys => if y.1 < x.1 then y :: insertByYear x ys else x :: y :: ys

/-- sort_values by Year, ascending. -/
def sortByYear (data : List (ℤ × ℚ)) : List (ℤ × ℚ) :=
  data.foldr insertByYear []

/-- A fitted regression line. -/
structure OlsLine where
  intercept : ℚ
  slope : ℚ
deriving Repr, DecidableEq

/-- Ordinary least squares of revenue against year with intercept, as
sklearn LinearRegression computes it; when every year is identical the
centered design matrix is zero and the fit is slope 0 with intercept
mean(y). -/
def fitOls (pts : List (ℤ × ℚ)) : OlsLine :=
  let n : ℚ := pts.length
  let sx : ℚ := (pts.map (fun p => (p.1 : ℚ))).sum
  let sy : ℚ := (pts.map (fun p => p.2)).sum
  let sxx : ℚ := (pts.map (fun p => (p.1 : ℚ) ^ 2)).sum
  let sxy : ℚ := (pts.map (fun p => (p.1 : ℚ) * p.2)).sum
  if n * sxx - sx ^ 2 = 0 then { intercept := sy / n, slope := 0 }
  else
    { intercept := (sy - ((n * sxy - sx * sy) / (n * sxx - sx ^ 2)) * sx) / n
      slope := (n * sxy - sx * sy) / (n * sxx - sx ^ 2) }

/-- model.predict evaluated at one year. -/
def linePredict (L : OlsLine) (year : ℤ) : ℚ :=
  L.intercept + L.slope * (year : ℚ)

/-- The growth rate recorded by fit.  On the short-data path it is the
exact default 2%; on the regression path the empirical CAGR
(end/start)^(1/years) - 1 is an irrational real in general, so it is kept
symbolically as its defining data (it never feeds any prediction). -/
inductive CagrVal where
  | rate (r : ℚ)
  | emp (startVal endVal : ℚ) (years : ℤ)
deriving Repr, DecidableEq

/-- The cagr assignment of RevenueForecaster.fit (forecaster.py lines
41-63): none when fit returns early on empty data; the 2% default with
fewer than two rows; otherwise the empirical first-to-last CAGR guarded
to 0 on non-positive elapsed years or start value. -/
def fitCagr (data : List (ℤ × ℚ)) : Option CagrVal :=
  match sortByYear data with
  | [] => none
  | x :: xs =>
    if (x :: xs).length < 2 then some (CagrVal.rate (1 / 50))
    else
      if 0 < ((x :: xs).getLastD x).1 - x.1 ∧ 0 < x.2 then
        some (CagrVal.emp x.2 ((x :: xs).getLastD x).2
          (((x :: xs).getLastD x).1 - x.1))
      else some (CagrVal.rate 0)

/-- The future year axis of predict: last_year + i for i in
1..years_ahead. -/
def futureYears (lastYear : ℤ) (yearsAhead : ℕ) : List ℤ :=
  (List.range yearsAhead).map (fun i => lastYear + (i : ℤ) + 1)

/-- fit followed by predict (the composition used by the pipeline wrapper
predict_future_revenue): empty data produces an empty forecast; fewer
than two rows produce compound 2% growth from the last value; otherwise
the fitted line is evaluated and clamped, first at 30% of the last
observed revenue, then at zero. -/
def forecastRevenue (data : List (ℤ × ℚ)) (yearsAhead : ℕ) : List (ℤ × ℚ) :=
  match sortByYear data with
  | [] => []
  | x :: xs =>
    if (x :: xs).length < 2 then
      (List.range yearsAhead).map (fun i =>
        (((x :: xs).getLastD x).1 + (i : ℤ) + 1,
         ((x :: xs).getLastD x).2 * (51 / 50) ^ (i + 1)))
    else
      (futureYears ((x :: xs).getLastD x).1 yearsAhead).map (fun y =>
        (y, max (max (linePredict (fitOls (x :: xs)) y)
          (((x :: xs).getLastD x).2 * (3 / 10))) 0))

/-! ## Claim C5 -/

/-- C5: on the regression path (at least two observations) every
forecast value is the fitted line clamped at 30% of the last observed
revenue and then at zero, so a line predicting below the (nonnegative)
floor yields exactly the floor; with a single observation each future
year compounds the last value at the default 2%, and that 2% is also the
recorded growth rate. -/
theorem c5_forecast_floor (data : List (ℤ × ℚ)) (yA : ℕ) (Y : ℤ) (R : ℚ) :
    (∀ x xs, sortByYear data = x :: xs → 2 ≤ (x :: xs).length →
      ∀ y v, (y, v) ∈ forecastRevenue data yA →
        v = max (max (linePredict (fitOls (x :: xs)) y)
            (((x :: xs).getLastD x).2 * (3 / 10))) 0 ∧
        (linePredict (fitOls (x :: xs)) y < ((x :: xs).getLastD x).2 * (3 / 10) →
          0 ≤ ((x :: xs).getLastD x).2 →
          v = ((x :: xs).getLastD x).2 * (3 / 10))) ∧
    (forecastRevenue [(Y, R)] yA =
      (List.range yA).map (fun i => (Y + (i : ℤ) + 1, R * (51 / 50) ^ (i + 1))) ∧
     fitCagr [(Y, R)] = some (CagrVal.rate (1 / 50))) := by
  constructor
  · intro x xs hsort hlen y v hmem
    unfold forecastRevenue at hmem
    rw [hsort] at hmem
    have hnl : ¬ (x :: xs).length < 2 := not_lt.mpr hlen
    simp only [hnl, if_false, List.mem_map] at hmem
    rcases hmem with ⟨y0, hy0, heq⟩
    simp only [Prod.mk.injEq] at heq
    rcases heq with ⟨hy, hv⟩
    subst hy
    constructor
    · exact hv.symm
    · intro hlt hnn
      rw [← hv]
      rw [max_eq_right (le_of_lt hlt)]
      exact max_eq_left (mul_nonneg hnn (by norm_num))
  · constructor
    · simp [forecastRevenue, sortByYear, insertByYear]
    · simp [fitCagr, sortByYear, insertByYear]

/-- C5 witness: on points (2020, 100), (2021, 40) the fitted line gives
-20 at 2022, below the floor 12 = 40 * 0.30, so the forecast value is
exactly 12; on the single point (2020, 100) the two-year forecast is 102
and 104.04 (2% compounding) and the recorded growth rate is 2%. -/
theorem c5_forecast_floor_witness :
    forecastRevenue [((2020 : ℤ), (100 : ℚ)), (2021, 40)] 1 = [(2022, 12)] ∧
    linePredict (fitOls [((2020 : ℤ), (100 : ℚ)), (2021, 40)]) 2022 = -20 ∧
    (12 : ℚ) = 40 * (3 / 10) ∧
    forecastRevenue [((2020 : ℤ), (100 : ℚ))] 2 =
      [(2021, 102), (2022, 2601 / 25)] ∧
    fitCagr [((2020 : ℤ), (100 : ℚ))] = some (CagrVal.rate (1 / 50)) := by
  have hsort : sortByYear [((2020 : ℤ), (100 : ℚ)), (2021, 40)] =
      ((2020 : ℤ), (100 : ℚ)) :: [(2021, 40)] := by
    norm_num [sortByYear, insertByYear]
  have hf : forecastRevenue [((2020 : ℤ), (100 : ℚ)), (2021, 40)] 1 =
      [(2022, 12)] := by
    norm_num [forecastRevenue, sortByYear, insertByYear, fitOls, linePredict,
      futureYears, List.range_succ]
  have happ := (c5_forecast_floor [((2020 : ℤ), (100 : ℚ)), (2021, 40)] 1
      2020 100).1 ((2020 : ℤ), (100 : ℚ)) [(2021, 40)] hsort (by norm_num)
      2022 12 (by rw [hf]; exact List.mem_singleton.mpr rfl)
  have hfall := (c5_forecast_floor [((2020 : ℤ), (100 : ℚ))] 2 2020 100).2
  refine ⟨hf, ?_, ?_, ?_, hfall.2⟩
  · norm_num [fitOls, linePredict]
  · have h12 := happ.2 (by norm_num [fitOls, linePredict]) (by norm_num)
    simpa using h12
  · rw [hfall.1]
    norm_num [List.range_succ]

/-! ## Extracted period dictionaries (extractor.py lines 149-165) -/

/-- A period object of the parsed LLM JSON: the thirteen keys of the
prompt schema, each possibly absent or null. -/
structure RawPeriod where
  period_end_date : Option String
  revenue : Option ℚ
  cogs : Option ℚ
  ebit : Option ℚ
  net_income : Option ℚ
  depreciation_amortization : Option ℚ
  assets : Option ℚ
  liabilities : Option ℚ
  equity : Option ℚ
  ocf : Option ℚ
  shares_outstanding : Option ℚ
  total_debt : Option ℚ
  cash_and_equivalents : Option ℚ
deriving Repr, DecidableEq

/-- The required-field completeness filter of extract_data (lines
149-162): a period is retained iff each of the eleven listed fields is
present and non-None.  The list includes shares_outstanding, total_debt
and cash_and_equivalents; it does not include period_end_date or
depreciation_amortization. -/
def passesCompleteness (p : RawPeriod) : Bool :=
  p.revenue.isSome && p.cogs.isSome && p.ebit.isSome &&
  p.net_income.isSome && p.assets.isSome && p.liabilities.isSome &&
  p.equity.isSome && p.ocf.isSome && p.shares_outstanding.isSome &&
  p.total_debt.isSome && p.cash_and_equivalents.isSome

/-- Building the pydantic FinancialPeriod from a period dictionary
(inside CompanyReport(**data)): only the ten declared fields are read;
shares_outstanding, total_debt and cash_and_equivalents are not declared
on the model and are silently ignored under the default pydantic
configuration.  Missing required fields fail; an absent
depreciation_amortization takes the declared default 0. -/
def mkFinancialPeriodOfRaw (p : RawPeriod) : Except String FinancialPeriod :=
  match p.period_end_date, p.revenue, p.cogs, p.ebit, p.net_income,
        p.assets, p.liabilities, p.equity, p.ocf with
  | some d, some rev, some cogs, some ebit, some ni, some assets,
    some liab, some eq, some ocf =>
      mkFinancialPeriod d rev cogs ebit ni
        (p.depreciation_amortization.getD 0) assets liab eq ocf
  | _, _, _, _, _, _, _, _, _ => Except.error "missing required field"

lemma convert_shares_none (row : Row) (h : row.shares_outstanding = none) :
    (convert_currency row).shares_outstanding = none := by
  unfold convert_currency
  by_cases h1 : pyUpper row.currency = TARGET_CURRENCY
  · simp [h1, h]
  · rcases h2 : List.lookup (pyUpper row.currency) EXCHANGE_RATES with _ | rate
    · simp [h1, h2, h]
    · by_cases h3 : rate = 0
      · simp [h1, h2, h3, h]
      · simp [h1, h2, h3, applySharesHeuristic, mapMetrics, h]

/-! ## Claim C10 -/

/-- C10: the completeness filter retains a period only if the extended
fields are present, yet those very fields are silently discarded by the
FinancialPeriod constructor (the construction outcome is independent of
them), so every aggregated row built from a constructed period lacks
them, and after currency conversion the shares field is still absent, so
the unit-scale heuristic can never fire on such rows. -/
theorem c10_extended_fields_discarded (p : RawPeriod) (rep : CompanyReport)
    (fp : FinancialPeriod) :
    (passesCompleteness p = true →
      p.shares_outstanding.isSome ∧ p.total_debt.isSome ∧
      p.cash_and_equivalents.isSome) ∧
    (∀ sh td ce,
      mkFinancialPeriodOfRaw
        { p with
          shares_outstanding := sh
          total_debt := td
          cash_and_equivalents := ce } =
        mkFinancialPeriodOfRaw p) ∧
    (mkFinancialPeriodOfRaw p = Except.ok fp →
      (rowOfPeriod rep fp).shares_outstanding = none ∧
      (rowOfPeriod rep fp).total_debt = none ∧
      (rowOfPeriod rep fp).cash_and_equivalents = none ∧
      (convert_currency (rowOfPeriod rep fp)).shares_outstanding = none) := by
  refine ⟨?_, ?_, ?_⟩
  · intro hc
    unfold passesCompleteness at hc
    simp only [Bool.and_eq_true] at hc
    exact ⟨hc.1.1.2, hc.1.2, hc.2⟩
  · intro sh td ce
    unfold mkFinancialPeriodOfRaw
    rfl
  · intro _
    exact ⟨rfl, rfl, rfl, convert_shares_none (rowOfPeriod rep fp) rfl⟩

/-- The concrete extracted period dictionary used in the C10 witness,
carrying the extended fields. -/
def rawSample : RawPeriod :=
  { period_end_date := some "2024-12-31"
    revenue := some 100
    cogs := some 60
    ebit := some 30
    net_income := some 24
    depreciation_amortization := some 0
    assets := some 200
    liabilities := some 100
    equity := some 100
    ocf := some 35
    shares_outstanding := some 100
    total_debt := some 50
    cash_and_equivalents := some 20 }

/-- C10 witness: the concrete period dictionary passes the completeness
filter with its extended fields present, constructs successfully while
the construction outcome ignores those fields, and the resulting
aggregated row carries no shares_outstanding even after conversion. -/
theorem c10_extended_fields_discarded_witness :
    rawSample.shares_outstanding.isSome = true ∧
    mkFinancialPeriodOfRaw
      { rawSample with
        shares_outstanding := some 999999
        total_debt := none
        cash_and_equivalents := none } =
      mkFinancialPeriodOfRaw rawSample ∧
    mkFinancialPeriodOfRaw rawSample = Except.ok samplePeriod ∧
    (convert_currency (rowOfPeriod gbpReport samplePeriod)).shares_outstanding =
      none := by
  have hmk : mkFinancialPeriodOfRaw rawSample = Except.ok samplePeriod := by
    norm_num [mkFinancialPeriodOfRaw, rawSample, mkFinancialPeriod,
      fieldConstraintsOk, accountingTolerance, samplePeriod]
  have h := c10_extended_fields_discarded rawSample gbpReport samplePeriod
  refine ⟨?_, h.2.1 (some 999999) none none, hmk, (h.2.2 hmk).2.2.2⟩
  · exact (h.1 (by decide)).1

end ExcelAgent
